import Mathlib

/-!
Shallow embedding of `ulez_checker.py` (ULEZ_Checker repository).

The script is a thin client around one HTTP POST: `check_vrm` normalizes and
validates a vehicle registration mark (VRM), posts a JSON lookup request to a
fixed TfL endpoint, and parses the JSON response; `to_bool` / `pretty_print`
render the parsed response as text; `main` is an interactive
read-check-print loop.

Modelling conventions:
* Python dict/JSON values are the inductive `Json`.  JSON arrays are not
  modelled: the script never constructs or indexes one, and every claim
  quantifies only over the shapes the script touches.  Python floats are not
  modelled either (no claim involves them).
* Python exceptions are the inductive `PyErr`; fallible code returns
  `Except PyErr _`.  The class hierarchy facts the script relies on are
  encoded by predicates: `json.JSONDecodeError` is a subclass of
  `ValueError`, and `requests.HTTPError` is neither.
* The network is a parameter `net : Request → HttpResponse`; `check_vrm`
  additionally returns the list of HTTP requests it issued, so that claims
  about "no network call" / "exactly one POST" are statements about that
  trace.
* `json.loads` is modelled abstractly: a response body is either `malformed`
  (raising `JSONDecodeError`, as `json.loads` does) or a parsed `Json` value.
* Characters: Python `str.upper` / `str.isalnum` are modelled by Lean's
  ASCII `Char.toUpper` / `Char.isAlphanum`; all VRM data in the program and
  the spec is ASCII.
-/

/-- A JSON / Python-dict value, as produced by `json.loads`. -/
inductive Json where
  | null
  | bool (b : Bool)
  | num (n : Int)
  | str (s : String)
  | obj (fields : List (String × Json))

/-- The Python exceptions the script can raise or meet.  `jsonDecodeError`
is `json.JSONDecodeError`, `keyError` a dict `KeyError`, `typeError` a
`TypeError` from subscripting a non-dict. -/
inductive PyErr where
  | valueError (msg : String)
  | httpError (status : Nat) (msg : String)
  | jsonDecodeError (msg : String)
  | keyError (key : String)
  | typeError (msg : String)
deriving DecidableEq

/-- Python `isinstance(e, ValueError)`: `json.JSONDecodeError` is a subclass
of `ValueError`. -/
def PyErr.isValueError : PyErr → Bool
  | .valueError _ => true
  | .jsonDecodeError _ => true
  | _ => false

/-- Python `isinstance(e, requests.HTTPError)`. -/
def PyErr.isHttpError : PyErr → Bool
  | .httpError _ _ => true
  | _ => false

/-- Python `d[k]` on a value: a lookup in a dict (raising `KeyError` when the
key is absent), a `TypeError` on anything that is not a dict. -/
def dictGet (j : Json) (k : String) : Except PyErr Json :=
  match j with
  | .obj fields =>
    match fields.lookup k with
    | some v => .ok v
    | none => .error (.keyError k)
  | _ => .error (.typeError "value is not subscriptable")

/-- Assignment into an association list: overwrite in place when the key
exists, append otherwise (Python dicts keep insertion order). -/
def setField (fields : List (String × Json)) (k : String) (v : Json) :
    List (String × Json) :=
  match fields with
  | [] => [(k, v)]
  | (k1, v1) :: rest =>
    if k1 = k then (k, v) :: rest else (k1, v1) :: setField rest k v

/-- Python `d[k] = v` on a value: updates a dict, `TypeError` otherwise. -/
def dictSet (j : Json) (k : String) (v : Json) : Except PyErr Json :=
  match j with
  | .obj fields => .ok (.obj (setField fields k v))
  | _ => .error (.typeError "value does not support item assignment")

/-- The normalization in `check_vrm` line 35: `vrm.replace(' ', '').upper()`
(remove spaces, then upper-case each character). -/
def pyNormalize (s : String) : String :=
  ⟨(s.data.filter (fun c => c != ' ')).map Char.toUpper⟩

/-- Python `str.isalnum`: true iff the string is non-empty and every
character is alphanumeric. -/
def pyIsAlnum (s : String) : Bool :=
  !s.data.isEmpty && s.data.all Char.isAlphanum

/-- A response body as seen by `json.loads`: either text that is not valid
JSON, or the JSON value it parses to.  (`json.loads` itself is library code,
modelled abstractly.) -/
inductive Body where
  | malformed (text : String)
  | wellFormed (j : Json)

/-- One HTTP POST as issued by `requests.post` in `check_vrm` lines 48-55. -/
structure Request where
  url : String
  body : Json
  headers : List (String × String)

/-- What the transport returns: `r.status_code` and `r.text` (the latter in
its parsed-or-malformed classification). -/
structure HttpResponse where
  status : Nat
  text : Body

/-- The message of the `json.JSONDecodeError` raised on text that is not
valid JSON (representative of what `json.loads` produces). -/
def jsonDecodeMsg : String := "Expecting value: line 1 column 1 (char 0)"

/-- Python `json.loads(text)`: the parsed value, or a `json.JSONDecodeError`
(a subclass of `ValueError`) on malformed text. -/
def jsonLoads (b : Body) : Except PyErr Json :=
  match b with
  | .malformed _ => .error (.jsonDecodeError jsonDecodeMsg)
  | .wellFormed j => .ok j

/-- `requests.Response.raise_for_status`: raises `HTTPError` carrying the
status code for 4xx client errors and 5xx server errors, and does nothing
for any other status. -/
def raise_for_status (r : HttpResponse) : Except PyErr Unit :=
  if 400 ≤ r.status ∧ r.status < 500 then
    .error (.httpError r.status (toString r.status ++ " Client Error"))
  else if 500 ≤ r.status ∧ r.status < 600 then
    .error (.httpError r.status (toString r.status ++ " Server Error"))
  else
    .ok ()

/-- The fixed endpoint URL (line 49). -/
def endpointUrl : String :=
  "https://mobileapim.tfl.gov.uk/Prod/unirucCapitaFacade/VRMLookup"

/-- The request payload built in lines 39-46:
`\x7b"vrmLookupRequest": \x7b"vRM": vrm, "country": "UK", "date": \x7b\x7d\x7d\x7d`. -/
def requestContent (vrm : String) : Json :=
  .obj [("vrmLookupRequest", .obj
    [("vRM", .str vrm), ("country", .str "UK"), ("date", .obj [])])]

/-- The full POST of lines 48-55 for a (normalized) VRM. -/
def postRequest (vrm : String) : Request :=
  { url := endpointUrl
    body := requestContent vrm
    headers := [("accept", "application/json"), ("content-type", "application/json")] }

/-- Python `x == ''` (line 59): only a string equal to the empty string
compares equal; any other value compares unequal without error. -/
def pyEqEmptyStr : Json → Bool
  | .str s => s == ""
  | _ => false

/-- `check_vrm` (lines 19-68), instrumented: given the transport `net`, it
returns the Python outcome (`.ok` the returned value — the response dict, or
`None` for a non-200 non-error status — or `.error` the raised exception)
together with the list of HTTP requests actually issued. -/
def check_vrm (net : Request → HttpResponse) (vrm : String) :
    Except PyErr Json × List Request :=
  let vrm := pyNormalize vrm
  if pyIsAlnum vrm then
    let req := postRequest vrm
    let r := net req
    let outcome : Except PyErr Json :=
      if r.status = 200 then do
        let vrmResponse ← jsonLoads r.text
        let lookupResp ← dictGet vrmResponse "vrmLookupResponse"
        let vehicleDetails ← dictGet lookupResp "vehicleDetails"
        let make ← dictGet vehicleDetails "make"
        if pyEqEmptyStr make then
          .error (.valueError ("VRM is invalid: " ++ vrm))
        else do
          let details2 ← dictGet (← dictGet vrmResponse "vrmLookupResponse") "vehicleDetails"
          let details2 ← dictSet details2 "vrm" (.str vrm)
          let lookupResp2 ← dictSet lookupResp "vehicleDetails" details2
          let updated ← dictSet vrmResponse "vrmLookupResponse" lookupResp2
          .ok updated
      else do
        let _ ← raise_for_status r
        .ok .null
    (outcome, [req])
  else
    (.error (.valueError ("VRM is invalid: " ++ vrm)), [])

/-- `to_bool` (lines 71-83): Python `number == 1`.  Under Python numeric
equality `True == 1` holds (`bool` is a subclass of `int`), so a JSON `true`
also compares equal to 1; everything else compares unequal. -/
def to_bool : Json → Bool
  | .num 1 => true
  | .bool true => true
  | _ => false

/-- Python `str(b)` for a bool as interpolated by an f-string: capitalized
`True` / `False`. -/
def pyBoolRepr (b : Bool) : String :=
  if b then "True" else "False"

/-- Python `str(x)` as interpolated by an f-string, for the atoms that occur
in the report.  Strings interpolate verbatim, ints in decimal, `None` as
`None`, bools capitalized.  A dict would interpolate as its `repr`; the
script only ever interpolates atoms, so the dict rendering is kept
schematic. -/
def pyStr : Json → String
  | .str s => s
  | .num n => toString n
  | .bool b => pyBoolRepr b
  | .null => "None"
  | .obj _ => "\x7b...\x7d"

/-- The delimiter line of the report (41 dashes). -/
def delimiterLine : String := "-----------------------------------------"

/-- `pretty_print` (lines 86-115), with the printed text returned instead of
written: field accesses happen left-to-right as in the f-string, and any
`KeyError`/`TypeError` they raise aborts the call; on success the result is
the exact string passed to `print` (which `print` then follows with a final
newline, handled at the loop level). -/
def pretty_print (vrm_response : Json) : Except PyErr String := do
  let lr ← dictGet vrm_response "vrmLookupResponse"
  let vrm ← dictGet (← dictGet lr "vehicleDetails") "vrm"
  let make ← dictGet (← dictGet lr "vehicleDetails") "make"
  let model ← dictGet (← dictGet lr "vehicleDetails") "model"
  let colour ← dictGet (← dictGet lr "vehicleDetails") "colour"
  let taxCode ← dictGet (← dictGet lr "vehicleDetails") "taxCode"
  let isCc ← dictGet (← dictGet (← dictGet lr "vehicleDetails") "chargeability") "isCcChargeable"
  let isLez ← dictGet (← dictGet (← dictGet lr "vehicleDetails") "chargeability") "isLezChargeable"
  let isUlez ← dictGet (← dictGet (← dictGet lr "vehicleDetails") "chargeability") "isUlezChargeable"
  let isEs ← dictGet (← dictGet (← dictGet lr "vehicleDetails") "chargeability") "isEsChargeable"
  let inAutoPay ← dictGet (← dictGet lr "vehicleDetails") "inAutoPay"
  let inAutoPayExceptions ← dictGet (← dictGet lr "vehicleDetails") "inAutoPayExceptions"
  let isCc100 ← dictGet (← dictGet lr "vehicleDetails") "isCc100PcDiscounted"
  let isUlez100 ← dictGet (← dictGet lr "vehicleDetails") "isUlez100PcDiscounted"
  let isExempt ← dictGet (← dictGet lr "vehicleDetails") "isULEZExempt"
  let listType ← dictGet (← dictGet lr "vehicleDetails") "uLEZVehicleListType"
  let isNonChargeable ← dictGet (← dictGet lr "vehicleDetails") "isULEZNonChargeable"
  .ok ("\n" ++ delimiterLine ++ "\n"
    ++ "VRM: " ++ pyStr vrm ++ "\n"
    ++ "Make: " ++ pyStr make ++ "\n"
    ++ "Model: " ++ pyStr model ++ "\n"
    ++ "Colour: " ++ pyStr colour ++ "\n"
    ++ "Tax Code: " ++ pyStr taxCode ++ "\n"
    ++ "Chargeability:" ++ "\n"
    ++ "    Congestion: " ++ pyBoolRepr (to_bool isCc) ++ "\n"
    ++ "    LEZ: " ++ pyBoolRepr (to_bool isLez) ++ "\n"
    ++ "    ULEZ: " ++ pyBoolRepr (to_bool isUlez) ++ "\n"
    ++ "    ES: " ++ pyBoolRepr (to_bool isEs) ++ "\n"
    ++ "Auto Pay: " ++ pyStr inAutoPay ++ "\n"
    ++ "Auto Pay Exceptions: " ++ pyStr inAutoPayExceptions ++ "\n"
    ++ "Congestion Charge 100% Discounted: " ++ pyStr isCc100 ++ "\n"
    ++ "ULEZ 100% Discounted: " ++ pyStr isUlez100 ++ "\n"
    ++ "ULEZ Exempt: " ++ pyBoolRepr (to_bool isExempt) ++ "\n"
    ++ "ULEZ Vehicle Type List: " ++ pyStr listType ++ "\n"
    ++ "ULEZ Non-Chargeable: " ++ pyBoolRepr (to_bool isNonChargeable) ++ "\n"
    ++ delimiterLine ++ "\n")

/-- Python `str(err)` as printed by `print('An error occurred -', err)`. -/
def PyErr.message : PyErr → String
  | .valueError msg => msg
  | .httpError _ msg => msg
  | .jsonDecodeError msg => msg
  | .keyError key => "\x27" ++ key ++ "\x27"
  | .typeError msg => msg

/-- The uncaught-exception classification of the loop body: `except
(ValueError, HTTPError)` (line 127) catches exactly `ValueError`s (including
`json.JSONDecodeError`) and `requests.HTTPError`s. -/
def caughtByMain (e : PyErr) : Bool :=
  e.isValueError || e.isHttpError

/-- One iteration of `main`'s `while True` body (lines 121-128) on one input
line: either some text is printed and the loop continues, or an uncaught
exception escapes and the process dies. -/
inductive StepResult where
  | output (s : String)
  | crash (e : PyErr)

/-- The body of `main`'s loop on one input line.  On success `pretty_print`'s
text is printed (plus `print`'s trailing newline); on a caught exception the
single line `An error occurred - <message>` is printed; any other exception
crashes. -/
def loopStep (net : Request → HttpResponse) (line : String) : StepResult :=
  match (check_vrm net line).1 with
  | .ok j =>
    match pretty_print j with
    | .ok s => .output (s ++ "\n")
    | .error e =>
      if caughtByMain e then .output ("An error occurred - " ++ e.message ++ "\n")
      else .crash e
  | .error e =>
    if caughtByMain e then .output ("An error occurred - " ++ e.message ++ "\n")
    else .crash e

/-- `main` (lines 118-128) driven by a finite prefix of the input stream:
the texts printed for the consumed prompts, and the uncaught exception if
one escaped the loop.  An exhausted input list models external termination
(interrupt / end of input); the loop itself has no exit. -/
def mainLoop (net : Request → HttpResponse) : List String → List String × Option PyErr
  | [] => ([], none)
  | line :: rest =>
    match loopStep net line with
    | .output s =>
      let out := mainLoop net rest
      (s :: out.1, out.2)
    | .crash e => ([], some e)

/-- The request trace of a sequence of independent `check_vrm` invocations,
in order: the script keeps no state between calls, so the trace of a run is
the concatenation of the per-call traces. -/
def requestTrace (net : Request → HttpResponse) (inputs : List String) : List Request :=
  (inputs.map (fun s => (check_vrm net s).2)).flatten

/-- A full `vehicleDetails` response of the shape `pretty_print` consumes,
with the six flag fields that the script passes through `to_bool` left as
parameters and the remaining fields fixed to sample values. -/
def flagsDetails (cc lez ulez es exempt nonCh : Json) : Json :=
  .obj [("vrmLookupResponse", .obj [("vehicleDetails", .obj [
    ("vrm", .str "AB12CDE"), ("make", .str "Ford"), ("model", .str "Focus"),
    ("colour", .str "Blue"), ("taxCode", .str "T1"),
    ("chargeability", .obj [("isCcChargeable", cc), ("isLezChargeable", lez),
      ("isUlezChargeable", ulez), ("isEsChargeable", es)]),
    ("inAutoPay", .str "N"), ("inAutoPayExceptions", .str "N"),
    ("isCc100PcDiscounted", .str "N"), ("isUlez100PcDiscounted", .str "N"),
    ("isULEZExempt", exempt), ("uLEZVehicleListType", .str "NONE"),
    ("isULEZNonChargeable", nonCh)])])]

/-- The text of a successful `pretty_print`, the empty string on failure
(used to state line-membership facts about a report). -/
def reportOrEmpty (r : Except PyErr String) : String :=
  match r with
  | .ok s => s
  | .error _ => ""

/-- The lines of a printed report. -/
def reportLines (s : String) : List (List Char) :=
  s.data.splitOn '\n'

/-- A transport whose lookups always succeed with the sample Ford details
(`isUlezChargeable = 1`). -/
def flagsNet : Request → HttpResponse :=
  fun _ => ⟨200, .wellFormed (flagsDetails (.num 1) (.num 0) (.num 1) (.num 0) (.num 0) (.num 0))⟩

/-- A transport that never has to answer (used where no request may be
issued) but would return 200 with a `null` body if it did. -/
def nullNet : Request → HttpResponse :=
  fun _ => ⟨200, .wellFormed .null⟩

/-- A minimal successful response: vehicle found (`make` = `"Ford"`). -/
def fordResponse : Json :=
  .obj [("vrmLookupResponse", .obj [("vehicleDetails", .obj
    [("make", .str "Ford"), ("model", .str "Focus")])])]

/-- A transport answering 200 with `fordResponse`. -/
def fordNet : Request → HttpResponse :=
  fun _ => ⟨200, .wellFormed fordResponse⟩

/-- The upstream signal for an unknown VRM: 200 with an empty `make`. -/
def noMatchResponse : Json :=
  .obj [("vrmLookupResponse", .obj [("vehicleDetails", .obj [("make", .str "")])])]

/-- A transport answering 200 with `noMatchResponse`. -/
def noMatchNet : Request → HttpResponse :=
  fun _ => ⟨200, .wellFormed noMatchResponse⟩

/-- A transport answering HTTP 204 (No Content) with a `null` JSON body. -/
def status204Net : Request → HttpResponse :=
  fun _ => ⟨204, .wellFormed .null⟩

/-- A transport answering HTTP 500. -/
def status500Net : Request → HttpResponse :=
  fun _ => ⟨500, .wellFormed .null⟩

/-- A transport answering 200 with a body that is not valid JSON. -/
def malformedNet : Request → HttpResponse :=
  fun _ => ⟨200, .malformed "<!DOCTYPE html>"⟩

/-- A transport answering 200 with valid JSON of an unexpected shape (an
empty object, so every expected field is missing). -/
def emptyObjNet : Request → HttpResponse :=
  fun _ => ⟨200, .wellFormed (.obj [])⟩

/-- `Char.ofNat` evaluates to the given code point on valid code points. -/
theorem toNat_charOfNat_valid (n : Nat) (h : n.isValidChar) : (Char.ofNat n).toNat = n := by
  unfold Char.ofNat
  rw [dif_pos h]
  rfl

/-- Code-point arithmetic of `Char.toUpper`. -/
theorem toUpper_toNat (c : Char) :
    c.toUpper.toNat = if 97 ≤ c.toNat ∧ c.toNat ≤ 122 then c.toNat - 32 else c.toNat := by
  unfold Char.toUpper
  split
  case isTrue h =>
    rw [if_pos (by exact ⟨h.1, h.2⟩)]
    exact toNat_charOfNat_valid _ (Or.inl (by omega))
  case isFalse h =>
    rw [if_neg (by exact fun hc => h ⟨hc.1, hc.2⟩)]

/-- `Char.toUpper` leaves non-lowercase characters alone. -/
theorem toUpper_fix (c : Char) (h : ¬(97 ≤ c.toNat ∧ c.toNat ≤ 122)) : c.toUpper = c := by
  unfold Char.toUpper
  rw [if_neg (by exact fun hc => h ⟨hc.1, hc.2⟩)]

/-- Characters with equal code points are equal. -/
theorem char_eq_of_toNat_eq {a b : Char} (h : a.toNat = b.toNat) : a = b := by
  have := congrArg Char.ofNat h
  rwa [Char.ofNat_toNat, Char.ofNat_toNat] at this

/-- Upper-casing is idempotent. -/
theorem toUpper_toUpper (c : Char) : c.toUpper.toUpper = c.toUpper := by
  by_cases h : 97 ≤ c.toNat ∧ c.toNat ≤ 122
  · apply toUpper_fix
    rw [toUpper_toNat, if_pos h]
    omega
  · simp only [toUpper_fix c h]

/-- Upper-casing never produces a space from a non-space. -/
theorem toUpper_ne_space {c : Char} (h : c ≠ ' ') : c.toUpper ≠ ' ' := by
  intro hs
  have hnat := congrArg Char.toNat hs
  rw [toUpper_toNat] at hnat
  by_cases h97 : 97 ≤ c.toNat ∧ c.toNat ≤ 122
  · rw [if_pos h97, show (' ').toNat = 32 from rfl] at hnat
    omega
  · rw [if_neg h97] at hnat
    exact h (char_eq_of_toNat_eq hnat)

/-- Normalization (space removal then upper-casing) is idempotent, so the
value `check_vrm` computes on line 35 is a fixed point of line 35. -/
theorem pyNormalize_idem (s : String) : pyNormalize (pyNormalize s) = pyNormalize s := by
  unfold pyNormalize
  congr 1
  have hfilter : ((s.data.filter (fun c => c != ' ')).map Char.toUpper).filter (fun c => c != ' ')
      = (s.data.filter (fun c => c != ' ')).map Char.toUpper := by
    apply List.filter_eq_self.mpr
    intro a ha
    rcases List.mem_map.mp ha with ⟨b, hb, rfl⟩
    have hbne : (b != ' ') = true := (List.mem_filter.mp hb).2
    have : b.toUpper ≠ ' ' := toUpper_ne_space (by simpa using hbne)
    simpa using this
  rw [hfilter, List.map_map]
  have : Char.toUpper ∘ Char.toUpper = Char.toUpper := funext toUpper_toUpper
  rw [this]

theorem lookup_setField_self (fields : List (String × Json)) (k : String) (v : Json) :
    (setField fields k v).lookup k = some v := by
  induction fields with
  | nil => simp [setField, List.lookup]
  | cons kv rest ih =>
    obtain ⟨k1, v1⟩ := kv
    by_cases h : k1 = k
    · simp [setField, h, List.lookup]
    · have hb : (k == k1) = false := by simp [Ne.symm h]
      simp [setField, h, List.lookup, hb, ih]

theorem lookup_setField_ne (fields : List (String × Json)) (k k2 : String) (v : Json)
    (h : k2 ≠ k) : (setField fields k v).lookup k2 = fields.lookup k2 := by
  have hb : (k2 == k) = false := by simp [h]
  induction fields with
  | nil => simp [setField, List.lookup, hb]
  | cons kv rest ih =>
    obtain ⟨k1, v1⟩ := kv
    by_cases h1 : k1 = k
    · subst h1
      simp [setField, List.lookup, hb]
    · simp [setField, h1, List.lookup, ih]

theorem dictGet_ok_iff {j : Json} {k : String} {v : Json} :
    dictGet j k = .ok v ↔ ∃ fields, j = .obj fields ∧ fields.lookup k = some v := by
  cases j <;> simp [dictGet]
  case obj fields =>
    cases hl : fields.lookup k <;> simp [hl]

theorem raise_for_status_client (r : HttpResponse) (h4 : 400 ≤ r.status)
    (h5 : r.status < 500) :
    raise_for_status r = .error (.httpError r.status (toString r.status ++ " Client Error")) := by
  unfold raise_for_status
  rw [if_pos ⟨h4, h5⟩]

theorem raise_for_status_server (r : HttpResponse) (h5 : 500 ≤ r.status)
    (h6 : r.status < 600) :
    raise_for_status r = .error (.httpError r.status (toString r.status ++ " Server Error")) := by
  unfold raise_for_status
  rw [if_neg (by omega), if_pos ⟨h5, h6⟩]

theorem raise_for_status_ok (r : HttpResponse) (h : r.status < 400 ∨ 600 ≤ r.status) :
    raise_for_status r = .ok () := by
  unfold raise_for_status
  rw [if_neg (by omega), if_neg (by omega)]

theorem mainLoop_cons (net : Request → HttpResponse) (line : String) (rest : List String) :
    mainLoop net (line :: rest) =
      match loopStep net line with
      | .output s => (s :: (mainLoop net rest).1, (mainLoop net rest).2)
      | .crash e => ([], some e) := by
  conv_lhs => rw [mainLoop]

theorem loopStep_caught (net : Request → HttpResponse) (line : String) (e : PyErr)
    (h : (check_vrm net line).1 = .error e) (hc : caughtByMain e = true) :
    loopStep net line = .output ("An error occurred - " ++ e.message ++ "\n") := by
  unfold loopStep
  simp [h, hc]

theorem loopStep_uncaught (net : Request → HttpResponse) (line : String) (e : PyErr)
    (h : (check_vrm net line).1 = .error e) (hc : caughtByMain e = false) :
    loopStep net line = .crash e := by
  unfold loopStep
  simp [h, hc]

theorem loopStep_ok (net : Request → HttpResponse) (line : String) (jresp : Json) (out : String)
    (h1 : (check_vrm net line).1 = .ok jresp) (h2 : pretty_print jresp = .ok out) :
    loopStep net line = .output (out ++ "\n") := by
  unfold loopStep
  simp [h1, h2]

/-- C1: for every input string whose normalized form (spaces removed,
upper-cased) is empty or contains a non-alphanumeric character, `check_vrm`
fails with a `ValueError` whose message carries the offending normalized
value, and issues no HTTP request. -/
theorem check_vrm_invalid_vrm_no_request (net : Request → HttpResponse) (s : String)
    (h : (pyNormalize s).data = [] ∨ ∃ c ∈ (pyNormalize s).data, c.isAlphanum = false) :
    check_vrm net s =
      (.error (.valueError ("VRM is invalid: " ++ pyNormalize s)), []) := by
  have halnum : pyIsAlnum (pyNormalize s) = false := by
    unfold pyIsAlnum
    rcases h with h | ⟨c, hc, hcf⟩
    · simp [h]
    · have hall : (pyNormalize s).data.all Char.isAlphanum = false := by
        simp only [List.all_eq_false]
        exact ⟨c, hc, by simp [hcf]⟩
      simp [hall]
  unfold check_vrm
  simp [halnum]

/-- C1 witness: the input `"12!!"` of the spec's end-to-end scenario is
rejected with the normalized value in the message and no request issued. -/
theorem check_vrm_invalid_vrm_no_request_witness :
    check_vrm nullNet "12!!" = (.error (.valueError "VRM is invalid: 12!!"), []) := by
  have h := check_vrm_invalid_vrm_no_request nullNet "12!!"
    (Or.inr ⟨'!', by decide, by decide⟩)
  exact h

/-- C2: a 200 response whose `vehicleDetails.make` is the empty string makes
`check_vrm` fail with a `ValueError` carrying the normalized VRM, despite the
success transport status. -/
theorem check_vrm_empty_make_invalid (net : Request → HttpResponse) (s : String)
    (j lr vd : Json)
    (hvalid : pyIsAlnum (pyNormalize s) = true)
    (hnet : net (postRequest (pyNormalize s)) = ⟨200, .wellFormed j⟩)
    (hlr : dictGet j "vrmLookupResponse" = .ok lr)
    (hvd : dictGet lr "vehicleDetails" = .ok vd)
    (hmake : dictGet vd "make" = .ok (.str "")) :
    check_vrm net s =
      (.error (.valueError ("VRM is invalid: " ++ pyNormalize s)),
       [postRequest (pyNormalize s)]) := by
  unfold check_vrm
  simp [hvalid, hnet, jsonLoads, hlr, hvd, hmake, pyEqEmptyStr, bind, Except.bind]

/-- C2 witness: a concrete 200 response with `make = ""` is rejected. -/
theorem check_vrm_empty_make_invalid_witness :
    check_vrm noMatchNet "ab 12" =
      (.error (.valueError "VRM is invalid: AB12"), [postRequest "AB12"]) := by
  have h := check_vrm_empty_make_invalid noMatchNet "ab 12" noMatchResponse
    (.obj [("vehicleDetails", .obj [("make", .str "")])])
    (.obj [("make", .str "")])
    (by decide) rfl rfl rfl rfl
  exact h

/-- C3 counterexample: a valid VRM and an HTTP 204 response — a status other
than 200 — for which `check_vrm` raises nothing at all: it returns `None` (as
`raise_for_status` does nothing below 400), against the claim that every
non-200 status fails with `HttpError`. -/
theorem check_vrm_status204_no_httpError_cex :
    (status204Net (postRequest "A1")).status = 204 ∧
    (status204Net (postRequest "A1")).status ≠ 200 ∧
    check_vrm status204Net "A1" = (.ok .null, [postRequest "A1"]) :=
  ⟨rfl, by decide, rfl⟩

/-- C3 amended: for every valid VRM, a response status in 400..599 makes
`check_vrm` fail with `HttpError` carrying that status code; any other
non-200 status raises nothing and `check_vrm` returns `None`. -/
theorem check_vrm_error_status_httpError (net : Request → HttpResponse) (s : String)
    (hvalid : pyIsAlnum (pyNormalize s) = true) :
    (400 ≤ (net (postRequest (pyNormalize s))).status →
      (net (postRequest (pyNormalize s))).status < 600 →
      ∃ msg, check_vrm net s =
        (.error (.httpError (net (postRequest (pyNormalize s))).status msg),
         [postRequest (pyNormalize s)])) ∧
    ((net (postRequest (pyNormalize s))).status ≠ 200 →
      ((net (postRequest (pyNormalize s))).status < 400 ∨
        600 ≤ (net (postRequest (pyNormalize s))).status) →
      check_vrm net s = (.ok .null, [postRequest (pyNormalize s)])) := by
  constructor
  · intro h4 h6
    have h200 : ¬ (net (postRequest (pyNormalize s))).status = 200 := by omega
    by_cases hc : (net (postRequest (pyNormalize s))).status < 500
    · refine ⟨toString (net (postRequest (pyNormalize s))).status ++ " Client Error", ?_⟩
      unfold check_vrm
      simp [hvalid, h200, raise_for_status_client _ h4 hc, bind, Except.bind]
    · refine ⟨toString (net (postRequest (pyNormalize s))).status ++ " Server Error", ?_⟩
      unfold check_vrm
      simp [hvalid, h200, raise_for_status_server _ (by omega) h6, bind, Except.bind]
  · intro h200 hrange
    unfold check_vrm
    simp [hvalid, h200, raise_for_status_ok _ hrange, bind, Except.bind]

/-- C3 witness: the amended statement at HTTP 500 (the spec's end-to-end
scenario) and at HTTP 204. -/
theorem check_vrm_error_status_httpError_witness :
    (∃ msg, check_vrm status500Net "A1" =
      (.error (.httpError 500 msg), [postRequest "A1"])) ∧
    check_vrm status204Net "A1" = (.ok .null, [postRequest "A1"]) := by
  constructor
  · exact (check_vrm_error_status_httpError status500Net "A1" (by decide)).1
      (by decide) (by decide)
  · exact (check_vrm_error_status_httpError status204Net "A1" (by decide)).2
      (by decide) (by decide)

/-- C4: on a 200 response whose `make` is a non-empty string, `check_vrm`
returns the parsed response with the normalized (not raw) input injected at
`vrmLookupResponse.vehicleDetails.vrm`, every other field of the three
touched objects unchanged, and exactly the one POST issued. -/
theorem check_vrm_success_normalized_vrm_injected (net : Request → HttpResponse)
    (s : String) (j lr vd : Json) (m : String)
    (hvalid : pyIsAlnum (pyNormalize s) = true)
    (hnet : net (postRequest (pyNormalize s)) = ⟨200, .wellFormed j⟩)
    (hlr : dictGet j "vrmLookupResponse" = .ok lr)
    (hvd : dictGet lr "vehicleDetails" = .ok vd)
    (hmake : dictGet vd "make" = .ok (.str m))
    (hm : m ≠ "") :
    ∃ j2 lr2 vd2,
      check_vrm net s = (.ok j2, [postRequest (pyNormalize s)]) ∧
      dictGet j2 "vrmLookupResponse" = .ok lr2 ∧
      dictGet lr2 "vehicleDetails" = .ok vd2 ∧
      dictGet vd2 "vrm" = .ok (.str (pyNormalize s)) ∧
      (∀ k, k ≠ "vrm" → dictGet vd2 k = dictGet vd k) ∧
      (∀ k, k ≠ "vehicleDetails" → dictGet lr2 k = dictGet lr k) ∧
      (∀ k, k ≠ "vrmLookupResponse" → dictGet j2 k = dictGet j k) := by
  rcases dictGet_ok_iff.mp hlr with ⟨jf, rfl, hjf⟩
  rcases dictGet_ok_iff.mp hvd with ⟨lf, rfl, hlf⟩
  rcases dictGet_ok_iff.mp hmake with ⟨vf, rfl, hvf⟩
  have hempty : pyEqEmptyStr (.str m) = false := by simp [pyEqEmptyStr, hm]
  refine ⟨.obj (setField jf "vrmLookupResponse"
      (.obj (setField lf "vehicleDetails" (.obj (setField vf "vrm" (.str (pyNormalize s))))))),
    .obj (setField lf "vehicleDetails" (.obj (setField vf "vrm" (.str (pyNormalize s))))),
    .obj (setField vf "vrm" (.str (pyNormalize s))), ?_, ?_, ?_, ?_, ?_, ?_, ?_⟩
  · unfold check_vrm
    simp [hvalid, hnet, jsonLoads, hlr, hvd, hmake, hempty, dictGet, hjf, hlf, hvf,
      dictSet, bind, Except.bind]
  · simp [dictGet, lookup_setField_self]
  · simp [dictGet, lookup_setField_self]
  · simp [dictGet, lookup_setField_self]
  · intro k hk
    simp [dictGet, lookup_setField_ne _ _ _ _ hk]
  · intro k hk
    simp [dictGet, lookup_setField_ne _ _ _ _ hk]
  · intro k hk
    simp [dictGet, lookup_setField_ne _ _ _ _ hk]

/-- C4 witness: the raw input `"ab12 cde"` against a found vehicle — the one
POST issued carries the normalized VRM. -/
theorem check_vrm_success_normalized_vrm_injected_witness :
    (check_vrm fordNet "ab12 cde").2 = [postRequest "AB12CDE"] := by
  obtain ⟨j2, lr2, vd2, h1, -⟩ :=
    check_vrm_success_normalized_vrm_injected fordNet "ab12 cde" fordResponse
      (.obj [("vehicleDetails", .obj [("make", .str "Ford"), ("model", .str "Focus")])])
      (.obj [("make", .str "Ford"), ("model", .str "Focus")]) "Ford"
      (by decide) rfl rfl rfl rfl (by decide)
  exact congrArg Prod.snd h1

/-- C5: `check_vrm` depends on its input only through the normalized form —
the raw input behaves identically to the space-stripped upper-cased input
(`"ab12 cde"` identically to `"AB12CDE"`), and every request it issues has
`vRM` equal to the normalized value in its body. -/
theorem check_vrm_normalize_first (net : Request → HttpResponse) (s : String) :
    check_vrm net s = check_vrm net (pyNormalize s) ∧
    check_vrm net "ab12 cde" = check_vrm net "AB12CDE" ∧
    (∀ req, req ∈ (check_vrm net s).2 →
      (dictGet req.body "vrmLookupRequest" >>= fun lookupReq => dictGet lookupReq "vRM")
        = .ok (.str (pyNormalize s))) := by
  have hgen : ∀ t : String, check_vrm net t = check_vrm net (pyNormalize t) := by
    intro t
    unfold check_vrm
    rw [pyNormalize_idem]
  refine ⟨hgen s, ?_, ?_⟩
  · have h := hgen "ab12 cde"
    rwa [show pyNormalize "ab12 cde" = "AB12CDE" from rfl] at h
  · intro req hreq
    unfold check_vrm at hreq
    by_cases hv : pyIsAlnum (pyNormalize s) = true
    · simp only [hv, if_true] at hreq
      simp only [List.mem_singleton] at hreq
      subst hreq
      simp [postRequest, requestContent, dictGet, List.lookup, bind, Except.bind]
    · simp only [Bool.not_eq_true] at hv
      simp [hv] at hreq

/-- C5 witness: the spec's example pair, and the request body of the
normalized call carrying `vRM = "AB12CDE"`. -/
theorem check_vrm_normalize_first_witness :
    check_vrm nullNet "ab12 cde" = check_vrm nullNet "AB12CDE" ∧
    (dictGet (postRequest "AB12CDE").body "vrmLookupRequest" >>= fun lookupReq =>
      dictGet lookupReq "vRM") = .ok (.str "AB12CDE") := by
  constructor
  · exact (check_vrm_normalize_first nullNet "ab12 cde").2.1
  · exact (check_vrm_normalize_first nullNet "ab12 cde").2.2 (postRequest "AB12CDE")
      (show postRequest "AB12CDE" ∈ [postRequest "AB12CDE"] from List.mem_singleton.mpr rfl)

set_option maxRecDepth 8192 in
/-- C6 counterexample: with `isUlezChargeable = 1` the printed report has no
line `ULEZ: true` — not even as a substring anywhere in the report — because
Python renders the flag as capitalized `True` on an indented line: the line
that does occur is `    ULEZ: True`. -/
theorem ulez_line_not_lowercase_cex :
    (reportLines (reportOrEmpty (pretty_print
      (flagsDetails (.num 1) (.num 0) (.num 1) (.num 0) (.num 0) (.num 0))))).contains
        "ULEZ: true".data = false ∧
    ¬ ("ULEZ: true".data <:+: (reportOrEmpty (pretty_print
      (flagsDetails (.num 1) (.num 0) (.num 1) (.num 0) (.num 0) (.num 0)))).data) ∧
    (reportLines (reportOrEmpty (pretty_print
      (flagsDetails (.num 1) (.num 0) (.num 1) (.num 0) (.num 0) (.num 0))))).contains
        "    ULEZ: True".data = true := by
  exact ⟨by decide, by decide, by decide⟩

set_option maxRecDepth 8192 in
/-- C6 amended: `to_bool` maps values equal to 1 under Python `==` (the
integer 1 and `True`) to true and any other value (including 0 or `None`) to
false; `pretty_print` renders the four chargeability flags and the two ULEZ
flags through this mapping (as Python's capitalized `True`/`False`); with
`isUlezChargeable = 1` the report contains the line `    ULEZ: True`, and
with value 0 the line `    ULEZ: False`. -/
theorem to_bool_flag_rendering :
    to_bool (.num 1) = true ∧
    to_bool (.bool true) = true ∧
    (∀ j, j ≠ .num 1 → j ≠ .bool true → to_bool j = false) ∧
    (∀ cc lez ulez es exempt nonCh,
      pretty_print (flagsDetails cc lez ulez es exempt nonCh) =
        .ok ("\n" ++ delimiterLine ++ "\n"
          ++ "VRM: " ++ "AB12CDE" ++ "\n"
          ++ "Make: " ++ "Ford" ++ "\n"
          ++ "Model: " ++ "Focus" ++ "\n"
          ++ "Colour: " ++ "Blue" ++ "\n"
          ++ "Tax Code: " ++ "T1" ++ "\n"
          ++ "Chargeability:" ++ "\n"
          ++ "    Congestion: " ++ pyBoolRepr (to_bool cc) ++ "\n"
          ++ "    LEZ: " ++ pyBoolRepr (to_bool lez) ++ "\n"
          ++ "    ULEZ: " ++ pyBoolRepr (to_bool ulez) ++ "\n"
          ++ "    ES: " ++ pyBoolRepr (to_bool es) ++ "\n"
          ++ "Auto Pay: " ++ "N" ++ "\n"
          ++ "Auto Pay Exceptions: " ++ "N" ++ "\n"
          ++ "Congestion Charge 100% Discounted: " ++ "N" ++ "\n"
          ++ "ULEZ 100% Discounted: " ++ "N" ++ "\n"
          ++ "ULEZ Exempt: " ++ pyBoolRepr (to_bool exempt) ++ "\n"
          ++ "ULEZ Vehicle Type List: " ++ "NONE" ++ "\n"
          ++ "ULEZ Non-Chargeable: " ++ pyBoolRepr (to_bool nonCh) ++ "\n"
          ++ delimiterLine ++ "\n")) ∧
    (reportLines (reportOrEmpty (pretty_print
      (flagsDetails (.num 1) (.num 0) (.num 1) (.num 0) (.num 0) (.num 0))))).contains
        "    ULEZ: True".data = true ∧
    (reportLines (reportOrEmpty (pretty_print
      (flagsDetails (.num 1) (.num 0) (.num 0) (.num 0) (.num 0) (.num 0))))).contains
        "    ULEZ: False".data = true := by
  refine ⟨rfl, rfl, ?_, ?_, by decide, by decide⟩
  · intro j h1 h2
    cases j with
    | num n =>
      have hn : n ≠ 1 := fun h => h1 (by rw [h])
      simp [to_bool, hn]
    | bool b =>
      cases b
      · rfl
      · exact absurd rfl h2
    | null => rfl
    | str s => rfl
    | obj f => rfl
  · intro cc lez ulez es exempt nonCh
    rfl

/-- C6 witness: the `to_bool` clause of the amended statement applied at the
concrete values 0 and `"N"`. -/
theorem to_bool_flag_rendering_witness :
    to_bool (.num 0) = false ∧ to_bool (.str "N") = false :=
  ⟨to_bool_flag_rendering.2.2.1 (.num 0) (by simp) (by simp),
   to_bool_flag_rendering.2.2.1 (.str "N") (by simp) (by simp)⟩

/-- C7: in every iteration of the interactive loop, a `ValueError` or
`HTTPError` raised by `check_vrm` is printed as the single line
`An error occurred - <message>` and the loop moves on to the remaining
prompts; a successful lookup prints the formatted report; and the loop never
stops of its own accord — whenever no uncaught exception escapes, it
consumes its entire input stream, one printed text per prompt. -/
theorem main_loop_catches_and_continues (net : Request → HttpResponse) (line : String)
    (rest inputs : List String) :
    (∀ e, (check_vrm net line).1 = .error e →
      e.isValueError = true ∨ e.isHttpError = true →
      mainLoop net (line :: rest) =
        (("An error occurred - " ++ e.message ++ "\n") :: (mainLoop net rest).1,
         (mainLoop net rest).2)) ∧
    (∀ jresp out, (check_vrm net line).1 = .ok jresp → pretty_print jresp = .ok out →
      mainLoop net (line :: rest) =
        ((out ++ "\n") :: (mainLoop net rest).1, (mainLoop net rest).2)) ∧
    ((mainLoop net inputs).2 = none → (mainLoop net inputs).1.length = inputs.length) := by
  refine ⟨?_, ?_, ?_⟩
  · intro e hce hcaught
    have hc : caughtByMain e = true := by
      rcases hcaught with h | h <;> simp [caughtByMain, h]
    rw [mainLoop_cons, loopStep_caught net line e hce hc]
  · intro jresp out hok hpp
    rw [mainLoop_cons, loopStep_ok net line jresp out hok hpp]
  · induction inputs with
    | nil => intro _; rfl
    | cons i is ih =>
      intro hnone
      rw [mainLoop_cons] at hnone ⊢
      cases hstep : loopStep net i with
      | output s =>
        rw [hstep] at hnone
        simp at hnone ⊢
        exact ih hnone
      | crash e =>
        rw [hstep] at hnone
        simp at hnone

set_option maxRecDepth 8192 in
/-- C7 witness: the spec's HTTP 500 scenario — the `HTTPError` is caught and
printed as one error line and the loop goes on —, and a successful lookup
whose report line count and continuation are as stated. -/
theorem main_loop_catches_and_continues_witness :
    mainLoop status500Net ["A1"] = (["An error occurred - 500 Server Error\n"], none) ∧
    (mainLoop flagsNet ["AB12CDE"]).2 = none ∧
    (mainLoop flagsNet ["AB12CDE"]).1.length = 1 := by
  refine ⟨?_, ?_, ?_⟩
  · exact (main_loop_catches_and_continues status500Net "A1" [] []).1
      (.httpError 500 "500 Server Error") rfl (Or.inr rfl)
  · have h := (main_loop_catches_and_continues flagsNet "AB12CDE" [] []).2.1 _ _ rfl rfl
    exact congrArg Prod.snd h
  · exact (main_loop_catches_and_continues flagsNet "AB12CDE" [] ["AB12CDE"]).2.2 rfl

/-- C8 counterexample: a 200 response whose JSON body is a well-formed but
empty object.  `check_vrm` raises `KeyError` (`'vrmLookupResponse'`), which
`except (ValueError, HTTPError)` does not catch: the loop crashes without
printing an error line and never reaches the second prompt, against the
claim that such failures are caught and the loop continues. -/
theorem main_loop_missing_fields_crash_cex :
    mainLoop emptyObjNet ["A1", "B2"] = ([], some (.keyError "vrmLookupResponse")) ∧
    caughtByMain (.keyError "vrmLookupResponse") = false :=
  ⟨rfl, rfl⟩

/-- C8 amended: on a 200 response with a malformed body the failure is a
`json.JSONDecodeError` — a `ValueError` — so the loop prints the error line
and continues; but on a 200 response with well-formed JSON that lacks the
expected nested fields, `check_vrm` raises `KeyError`, which the loop's
`except (ValueError, HTTPError)` does not catch, so the loop crashes. -/
theorem main_loop_parse_failures (net : Request → HttpResponse) (s : String)
    (rest : List String) (text : String) :
    (pyIsAlnum (pyNormalize s) = true →
      net (postRequest (pyNormalize s)) = ⟨200, .malformed text⟩ →
      mainLoop net (s :: rest) =
        (("An error occurred - " ++ jsonDecodeMsg ++ "\n") :: (mainLoop net rest).1,
         (mainLoop net rest).2)) ∧
    (pyIsAlnum (pyNormalize s) = true →
      net (postRequest (pyNormalize s)) = ⟨200, .wellFormed (.obj [])⟩ →
      mainLoop net (s :: rest) = ([], some (.keyError "vrmLookupResponse"))) := by
  constructor
  · intro hvalid hnet
    have hcv : (check_vrm net s).1 = .error (.jsonDecodeError jsonDecodeMsg) := by
      unfold check_vrm
      simp [hvalid, hnet, jsonLoads, bind, Except.bind]
    rw [mainLoop_cons, loopStep_caught net s _ hcv rfl]
    rfl
  · intro hvalid hnet
    have hcv : (check_vrm net s).1 = .error (.keyError "vrmLookupResponse") := by
      unfold check_vrm
      simp [hvalid, hnet, jsonLoads, dictGet, List.lookup, bind, Except.bind]
    rw [mainLoop_cons, loopStep_uncaught net s _ hcv rfl]

/-- C8 witness: both halves of the amended statement at concrete transports
(a non-JSON 200 body; an empty-object 200 body). -/
theorem main_loop_parse_failures_witness :
    mainLoop malformedNet ["A1"] =
      (["An error occurred - " ++ jsonDecodeMsg ++ "\n"], none) ∧
    mainLoop emptyObjNet ["A1", "B2"] = ([], some (.keyError "vrmLookupResponse")) := by
  constructor
  · exact (main_loop_parse_failures malformedNet "A1" [] "<!DOCTYPE html>").1
      (by decide) rfl
  · exact (main_loop_parse_failures emptyObjNet "A1" ["B2"] "").2 (by decide) rfl

/-- C9: `check_vrm` keeps no state between calls — each call on a valid VRM
issues exactly one POST to the fixed endpoint, and a run that looks the same
VRM up twice in a row issues that identical fresh request twice (the
docstring's claim of a cached repeat response is not the behaviour). -/
theorem check_vrm_no_cache_one_post_per_call (net : Request → HttpResponse) (s : String)
    (hvalid : pyIsAlnum (pyNormalize s) = true) :
    (check_vrm net s).2 = [postRequest (pyNormalize s)] ∧
    requestTrace net [s, s] = [postRequest (pyNormalize s), postRequest (pyNormalize s)] ∧
    (postRequest (pyNormalize s)).url = endpointUrl := by
  have h2 : (check_vrm net s).2 = [postRequest (pyNormalize s)] := by
    unfold check_vrm
    simp [hvalid]
  exact ⟨h2, by simp [requestTrace, h2], rfl⟩

/-- C9 witness: two consecutive lookups of `"AB12CDE"` each issue the same
single fresh POST. -/
theorem check_vrm_no_cache_one_post_per_call_witness :
    (check_vrm nullNet "AB12CDE").2 = [postRequest "AB12CDE"] ∧
    requestTrace nullNet ["AB12CDE", "AB12CDE"] =
      [postRequest "AB12CDE", postRequest "AB12CDE"] ∧
    (postRequest "AB12CDE").url = endpointUrl := by
  exact check_vrm_no_cache_one_post_per_call nullNet "AB12CDE" (by decide)

/-- C10: a 200 response whose body is not valid JSON makes `check_vrm` raise
`json.JSONDecodeError`; being a `ValueError` subclass it is caught by the
loop's `except (ValueError, HTTPError)`, the error line is printed, and the
loop continues with the remaining prompts. -/
theorem malformed_json_decode_error_caught (net : Request → HttpResponse) (s : String)
    (rest : List String) (text : String)
    (hvalid : pyIsAlnum (pyNormalize s) = true)
    (hnet : net (postRequest (pyNormalize s)) = ⟨200, .malformed text⟩) :
    (check_vrm net s).1 = .error (.jsonDecodeError jsonDecodeMsg) ∧
    (PyErr.jsonDecodeError jsonDecodeMsg).isValueError = true ∧
    caughtByMain (.jsonDecodeError jsonDecodeMsg) = true ∧
    mainLoop net (s :: rest) =
      (("An error occurred - " ++ jsonDecodeMsg ++ "\n") :: (mainLoop net rest).1,
       (mainLoop net rest).2) := by
  have hcv : (check_vrm net s).1 = .error (.jsonDecodeError jsonDecodeMsg) := by
    unfold check_vrm
    simp [hvalid, hnet, jsonLoads, bind, Except.bind]
  refine ⟨hcv, rfl, rfl, ?_⟩
  rw [mainLoop_cons, loopStep_caught net s _ hcv rfl]
  rfl

/-- C10 witness: a concrete HTML error page behind a 200 status is caught
and reported, and the loop continues. -/
theorem malformed_json_decode_error_caught_witness :
    (check_vrm malformedNet "A1").1 = .error (.jsonDecodeError jsonDecodeMsg) ∧
    (PyErr.jsonDecodeError jsonDecodeMsg).isValueError = true ∧
    caughtByMain (.jsonDecodeError jsonDecodeMsg) = true ∧
    mainLoop malformedNet ["A1"] =
      (["An error occurred - " ++ jsonDecodeMsg ++ "\n"], none) := by
  exact malformed_json_decode_error_caught malformedNet "A1" [] "<!DOCTYPE html>"
    (by decide) rfl
